import Mathlib

/-!
Verification of the k6-sandbox mock API server (`mock-api/server.js`,
an Express application) and the k6 auth helper (`utils/auth.js`).

The route handlers are embedded shallowly: each Express handler becomes a
pure Lean function from its request data (body / path params / query
params) and its per-request entropy (the values drawn from `Math.random()`
and `new Date()`) to an HTTP response, modelled as a status code plus a
JSON body.  External opaque operations (JWT signing/verification, the JSON
parser applied to an arbitrary HTTP response body) are modelled by small
inductive types that record exactly the information those operations
preserve.
-/

namespace MockApi

/-- Payload carried by a JWT issued by `jwt.sign({userId, username}, secret)`. -/
structure JwtPayload where
  userId : Nat
  username : String
deriving DecidableEq, Repr

/-- Model of a JWT token string.  `jwt.sign` always produces a `signed`
value recording the payload and the secret; any other string a client may
present (malformed or tampered) is `garbage`. -/
inductive TokenStr where
  | signed (userId : Nat) (username : String) (secret : String)
  | garbage (s : String)
deriving DecidableEq, Repr

/-- Model of `jwt.sign({userId, username}, secret)`. -/
def jwtSign (p : JwtPayload) (secret : String) : TokenStr :=
  .signed p.userId p.username secret

/-- Model of `jwt.verify(token, secret)`: returns the payload when the
token was signed with `secret`, and `none` (the `throw` branch) otherwise. -/
def jwtVerify (t : TokenStr) (secret : String) : Option JwtPayload :=
  match t with
  | .signed u n s => if s = secret then some ⟨u, n⟩ else none
  | .garbage _ => none

/-- JSON values, as built by the server's route handlers.  The `jwt`
constructor stands for the (opaquely encoded, always non-empty) token
string produced by `jwt.sign`. -/
inductive Json where
  | null
  | bool (b : Bool)
  | num (n : Int)
  | str (s : String)
  | jwt (t : TokenStr)
  | arr (elems : List Json)
  | obj (fields : List (String × Json))

/-- Field lookup on a JSON value: JavaScript property access `j[k]`,
`none` for a missing property or a non-object receiver. -/
def getField (j : Json) (k : String) : Option Json :=
  match j with
  | .obj fields => fields.lookup k
  | _ => none

/-- Two-step field lookup `j[k1][k2]`, short-circuiting on a missing or
non-object intermediate value, as JavaScript optional chaining does. -/
def getPath (j : Json) (k1 k2 : String) : Option Json :=
  (getField j k1).bind (fun d => getField d k2)

/-- JavaScript truthiness of a JSON value (`null`, `false`, `0` and `""`
are falsy; objects and arrays are always truthy; a JWT string is a
non-empty string, hence truthy). -/
def jsTruthy : Json → Bool
  | .null => false
  | .bool b => b
  | .num n => n ≠ 0
  | .str s => s ≠ ""
  | .jwt _ => true
  | .arr _ => true
  | .obj _ => true

/-- Falsiness of an optional string (a destructured request-body field):
`undefined` and `""` are falsy, so `!x` is true exactly here. -/
def jsFalsyS : Option String → Bool
  | none => true
  | some s => s = ""

/-- The JavaScript idiom `x || d` applied to an optional string field. -/
def jsOrS (x : Option String) (d : String) : String :=
  match x with
  | none => d
  | some s => if s = "" then d else s

/-- The JavaScript idiom `parseInt(s) || d`: `NaN` (here `none`) and `0`
both fall back to the default. -/
def jsOrI (x : Option Int) (d : Int) : Int :=
  match x with
  | none => d
  | some v => if v = 0 then d else v

/-- Decimal digit value of a character, if it is a digit. -/
def digitVal (c : Char) : Option Nat :=
  if '0' ≤ c ∧ c ≤ '9' then some (c.toNat - '0'.toNat) else none

/-- Hexadecimal digit value of a character, if it is a hex digit. -/
def hexDigitVal (c : Char) : Option Nat :=
  if '0' ≤ c ∧ c ≤ '9' then some (c.toNat - '0'.toNat)
  else if 'a' ≤ c ∧ c ≤ 'f' then some (c.toNat - 'a'.toNat + 10)
  else if 'A' ≤ c ∧ c ≤ 'F' then some (c.toNat - 'A'.toNat + 10)
  else none

/-- Accumulate a digit list into a natural number in the given radix. -/
def digitsToNat (radix : Nat) (ds : List Nat) : Nat :=
  ds.foldl (fun acc d => acc * radix + d) 0

/-- Parse the longest leading run of digits (in the given radix) of `cs`;
`none` when there is no leading digit, mirroring `parseInt`'s NaN. -/
def parseDigits (dv : Char → Option Nat) (radix : Nat) (cs : List Char) : Option Nat :=
  let ds := (cs.takeWhile (fun c => (dv c).isSome)).filterMap dv
  if ds.isEmpty then none else some (digitsToNat radix ds)

/-- Model of JavaScript `parseInt(s)` (no radix argument): skip leading
whitespace, read an optional sign, then either a `0x`/`0X`-prefixed
hexadecimal digit run or a decimal digit run; `none` models `NaN`. -/
def parseIntJs (s : String) : Option Int :=
  let cs := s.data.dropWhile Char.isWhitespace
  let (sign, cs) : Int × List Char :=
    match cs with
    | '-' :: rest => (-1, rest)
    | '+' :: rest => (1, rest)
    | rest => (1, rest)
  let mag : Option Nat :=
    match cs with
    | '0' :: 'x' :: rest => parseDigits hexDigitVal 16 rest
    | '0' :: 'X' :: rest => parseDigits hexDigitVal 16 rest
    | rest => parseDigits digitVal 10 rest
  mag.map (fun m => sign * m)

/-- Rendering of a possibly-NaN number into a template literal, as in
`` `ユーザー${userId}` ``. -/
def jsNumToStr : Option Int → String
  | none => "NaN"
  | some v => toString v

/-- A possibly-NaN number placed in a JSON response (`JSON.stringify`
turns `NaN` into `null`). -/
def jsNum : Option Int → Json
  | none => .null
  | some v => .num v

/-- An HTTP response produced by a route handler: the status code set via
`res.status(...)` (200 for a bare `res.json`) and the JSON body. -/
structure Response where
  status : Int
  body : Json

/-- The server's JWT signing secret. -/
def JWT_SECRET : String := "k6-test-secret-key"

/-- Request body of `POST /api/users` and `PUT /api/users/:id`, after the
destructuring `const { name, email } = req.body` (`none` = field absent). -/
structure UserBody where
  name : Option String
  email : Option String
deriving DecidableEq, Repr

/-- Request body of `POST /api/auth/login`, after
`const { username, password } = req.body`. -/
structure LoginBody where
  username : Option String
  password : Option String
deriving DecidableEq, Repr

/-- Value of the `Authorization` request header as seen by
`GET /api/auth/me`: either `"Bearer " + token` or some other string. -/
inductive HeaderVal where
  | bearer (t : TokenStr)
  | other (s : String)
deriving DecidableEq, Repr

/-- Per-request entropy: the values the handlers draw from `Math.random()`
and `new Date().toISOString()`, passed in explicitly. -/
structure Entropy where
  /-- `Math.floor(Math.random() * 10000)` in `POST /api/users`. -/
  newUserId : Nat
  /-- `Math.floor(Math.random() * 1000)` in `POST /api/auth/login`. -/
  loginUserId : Nat
  /-- `Math.floor(Math.random() * 1900)` in `GET /api/random-delay`. -/
  delayRand : Nat
  /-- `Math.random()` in `GET /api/random-error`. -/
  errRand : ℚ
  /-- `Math.floor(Math.random() * 1000000)` in `POST /api/upload`. -/
  uploadSize : Nat
  /-- `new Date().toISOString()`. -/
  now : String
deriving DecidableEq, Repr

/-- Handler of `GET /health`. -/
def healthHandler (now : String) : Response :=
  ⟨200, .obj [("status", .str "ok"), ("timestamp", .str now)]⟩

/-- Handler of `GET /api/users`: a fixed array of three users. -/
def getUsersHandler : Response :=
  ⟨200, .obj [("success", .bool true),
    ("data", .arr [
      .obj [("id", .num 1), ("name", .str "田中太郎"), ("email", .str "tanaka@example.com")],
      .obj [("id", .num 2), ("name", .str "佐藤花子"), ("email", .str "sato@example.com")],
      .obj [("id", .num 3), ("name", .str "鈴木一郎"), ("email", .str "suzuki@example.com")]])]⟩

/-- Handler of `GET /api/users/:id`: a user synthesized from the parsed id. -/
def getUserByIdHandler (id : String) (now : String) : Response :=
  let userId := parseIntJs id
  ⟨200, .obj [("success", .bool true),
    ("data", .obj [
      ("id", jsNum userId),
      ("name", .str ("ユーザー" ++ jsNumToStr userId)),
      ("email", .str ("user" ++ jsNumToStr userId ++ "@example.com")),
      ("createdAt", .str now)])]⟩

/-- Handler of `POST /api/users`: 400 when `name` or `email` is falsy,
else 201 with a random id and the echoed fields. -/
def postUsersHandler (body : UserBody) (rid : Nat) (now : String) : Response :=
  if jsFalsyS body.name || jsFalsyS body.email then
    ⟨400, .obj [("success", .bool false), ("error", .str "name と email は必須です")]⟩
  else
    ⟨201, .obj [("success", .bool true),
      ("data", .obj [
        ("id", .num rid),
        ("name", .str (body.name.getD "")),
        ("email", .str (body.email.getD "")),
        ("createdAt", .str now)])]⟩

/-- Handler of `PUT /api/users/:id`: echoes the update with defaults for
missing fields. -/
def putUserHandler (id : String) (body : UserBody) (now : String) : Response :=
  let userId := parseIntJs id
  ⟨200, .obj [("success", .bool true),
    ("data", .obj [
      ("id", jsNum userId),
      ("name", .str (jsOrS body.name ("ユーザー" ++ jsNumToStr userId))),
      ("email", .str (jsOrS body.email ("user" ++ jsNumToStr userId ++ "@example.com"))),
      ("updatedAt", .str now)])]⟩

/-- Handler of `DELETE /api/users/:id`: an acknowledgement message only. -/
def deleteUserHandler (id : String) : Response :=
  let userId := parseIntJs id
  ⟨200, .obj [("success", .bool true),
    ("message", .str ("ユーザーID " ++ jsNumToStr userId ++ " を削除しました"))]⟩

/-- Handler of `POST /api/auth/login`: 400 when `username` or `password`
is falsy, 401 when the password is the literal `"wrong"`, else 200 with a
signed token. -/
def loginHandler (body : LoginBody) (uid : Nat) : Response :=
  if jsFalsyS body.username || jsFalsyS body.password then
    ⟨400, .obj [("success", .bool false), ("error", .str "username と password は必須です")]⟩
  else if body.password = some "wrong" then
    ⟨401, .obj [("success", .bool false), ("error", .str "認証に失敗しました")]⟩
  else
    ⟨200, .obj [("success", .bool true),
      ("data", .obj [
        ("token", .jwt (jwtSign ⟨uid, body.username.getD ""⟩ JWT_SECRET)),
        ("expiresIn", .num 3600)])]⟩

/-- Handler of `GET /api/auth/me`: 401 without a `Bearer` header or when
verification throws, else the decoded payload. -/
def authMeHandler (auth : Option HeaderVal) : Response :=
  match auth with
  | none =>
    ⟨401, .obj [("success", .bool false), ("error", .str "認証トークンが必要です")]⟩
  | some (.other _) =>
    ⟨401, .obj [("success", .bool false), ("error", .str "認証トークンが必要です")]⟩
  | some (.bearer t) =>
    match jwtVerify t JWT_SECRET with
    | some decoded =>
      ⟨200, .obj [("success", .bool true),
        ("data", .obj [
          ("userId", .num decoded.userId),
          ("username", .str decoded.username)])]⟩
    | none =>
      ⟨401, .obj [("success", .bool false), ("error", .str "トークンが無効です")]⟩

/-- Handler of `GET /api/delay/:ms`.  The second component is the argument
the handler passes to `setTimeout`, i.e. the milliseconds it waits before
responding. -/
def delayHandler (ms : String) (now : String) : Response × Int :=
  let delayMs := jsOrI (parseIntJs ms) 0
  let maxDelay : Int := 10000
  let actualDelay := min delayMs maxDelay
  (⟨200, .obj [("success", .bool true),
    ("data", .obj [
      ("requestedDelay", .num delayMs),
      ("actualDelay", .num actualDelay),
      ("timestamp", .str now)])]⟩, actualDelay)

/-- Handler of `GET /api/random-delay`; `rd` models
`Math.floor(Math.random() * 1900)`, so the delay is `rd + 100`. -/
def randomDelayHandler (rd : Nat) (now : String) : Response × Int :=
  let delay : Int := rd + 100
  (⟨200, .obj [("success", .bool true),
    ("data", .obj [("delay", .num delay), ("timestamp", .str now)])]⟩, delay)

/-- The `messages` table of `GET /api/status/:code`. -/
def statusMessage (c : Int) : String :=
  if c = 200 then "OK"
  else if c = 400 then "Bad Request"
  else if c = 401 then "Unauthorized"
  else if c = 403 then "Forbidden"
  else if c = 404 then "Not Found"
  else if c = 500 then "Internal Server Error"
  else if c = 502 then "Bad Gateway"
  else if c = 503 then "Service Unavailable"
  else "Unknown Status"

/-- Handler of `GET /api/status/:code`: echoes the parsed status code
(default 200) with `success = statusCode < 400`. -/
def statusHandler (code : String) : Response :=
  let statusCode := jsOrI (parseIntJs code) 200
  ⟨statusCode, .obj [
    ("success", .bool (decide (statusCode < 400))),
    ("statusCode", .num statusCode),
    ("message", .str (statusMessage statusCode))]⟩

/-- Handler of `GET /api/random-error`: 500 when `Math.random() < 0.2`,
generic over the ordered field the random draw lives in. -/
def randomErrorHandler {α : Type} [LinearOrderedField α] (r : α)
    [Decidable (r < 2 / 10)] : Response :=
  if r < 2 / 10 then
    ⟨500, .obj [("success", .bool false), ("error", .str "ランダムに発生したサーバーエラー")]⟩
  else
    ⟨200, .obj [("success", .bool true),
      ("data", .obj [("message", .str "正常にレスポンスを返しました")])]⟩

/-- One element of the `GET /api/large-payload` response array
(`Array.from({length: size}, (_, i) => ...)` at index `i`). -/
def largePayloadItem (i : Nat) (now : String) : Json :=
  .obj [
    ("id", .num (i + 1)),
    ("name", .str ("アイテム" ++ toString (i + 1))),
    ("description", .str (String.join
      (List.replicate 5 "これは大きなペイロードをテストするためのダミーデータです。"))),
    ("timestamp", .str now)]

/-- Handler of `GET /api/large-payload?size=N` (`size?` is the raw query
parameter, `none` when absent). -/
def largePayloadHandler (size? : Option String) (now : String) : Response :=
  let size := jsOrI (size?.bind parseIntJs) 100
  let items := (List.range size.toNat).map (fun i => largePayloadItem i now)
  ⟨200, .obj [
    ("success", .bool true),
    ("count", .num items.length),
    ("data", .arr items)]⟩

/-- Handler of `POST /api/upload`. -/
def uploadHandler (usize : Nat) (now : String) : Response :=
  ⟨200, .obj [("success", .bool true),
    ("data", .obj [
      ("filename", .str "uploaded-file.txt"),
      ("size", .num usize),
      ("uploadedAt", .str now)])]⟩

/-- The 404 fallback handler. -/
def notFoundHandler : Response :=
  ⟨404, .obj [("success", .bool false), ("error", .str "エンドポイントが見つかりません")]⟩

/-- The terminal error handler. -/
def errorHandler : Response :=
  ⟨500, .obj [("success", .bool false), ("error", .str "サーバーエラーが発生しました")]⟩

/-- A request to the server, one constructor per route of the Express
route table, carrying the request data each handler reads; `unmatched`
covers every request no route matches, and `raisedError` a request on
which a handler threw. -/
inductive ApiRequest where
  | health
  | getUsersReq
  | getUserReq (id : String)
  | createUserReq (body : UserBody)
  | updateUserReq (id : String) (body : UserBody)
  | deleteUserReq (id : String)
  | loginReq (body : LoginBody)
  | meReq (auth : Option HeaderVal)
  | delayReq (ms : String)
  | randomDelayReq
  | statusReq (code : String)
  | randomErrorReq
  | largePayloadReq (size : Option String)
  | uploadReq
  | unmatched (method : String) (path : String)
  | raisedError
deriving DecidableEq, Repr

/-- The server's dispatch: route a request to its handler. -/
def handle (req : ApiRequest) (e : Entropy) : Response :=
  match req with
  | .health => healthHandler e.now
  | .getUsersReq => getUsersHandler
  | .getUserReq id => getUserByIdHandler id e.now
  | .createUserReq body => postUsersHandler body e.newUserId e.now
  | .updateUserReq id body => putUserHandler id body e.now
  | .deleteUserReq id => deleteUserHandler id
  | .loginReq body => loginHandler body e.loginUserId
  | .meReq auth => authMeHandler auth
  | .delayReq ms => (delayHandler ms e.now).1
  | .randomDelayReq => (randomDelayHandler e.delayRand e.now).1
  | .statusReq code => statusHandler code
  | .randomErrorReq => randomErrorHandler e.errRand
  | .largePayloadReq size => largePayloadHandler size e.now
  | .uploadReq => uploadHandler e.uploadSize e.now
  | .unmatched _ _ => notFoundHandler
  | .raisedError => errorHandler

/-- Server-side state shared between requests.  The server module binds
only constants (`app`, `PORT`, `JWT_SECRET`); it declares no mutable
store, so the state is empty. -/
def ServerState : Type := Unit

/-- Process one request: produce the response and the successor state. -/
def serverStep (s : ServerState) (req : ApiRequest) (e : Entropy) :
    Response × ServerState :=
  (handle req e, s)

/-- Process a sequence of requests, threading the server state. -/
def runRequests (s : ServerState) (reqs : List (ApiRequest × Entropy)) : ServerState :=
  reqs.foldl (fun st re => (serverStep st re.1 re.2).2) s

end MockApi

namespace K6Utils

open MockApi

/-- Body of an HTTP response as seen by the k6 `login` helper: either a
string that `JSON.parse` decodes to a JSON value, or one on which it
throws. -/
inductive BodyStr where
  | jsonOf (j : Json)
  | invalid (s : String)

/-- Model of `JSON.parse` inside the helper's `try`/`catch`: `none` is the
thrown-and-caught branch. -/
def jsonParse : BodyStr → Option Json
  | .jsonOf j => some j
  | .invalid _ => none

/-- An HTTP response received by the k6 helper (`response.status`,
`response.body`). -/
structure K6Response where
  status : Int
  body : BodyStr

/-- The k6 helper `login(baseUrl, username, password)` (`utils/auth.js`),
applied to the HTTP response it receives: returns `body.data?.token || null`
on a 200 response whose body parses, and `null` (`none`) otherwise. -/
def loginUtil (resp : K6Response) : Option Json :=
  if resp.status = 200 then
    match jsonParse resp.body with
    | some body =>
      match (getField body "data").bind (fun d => getField d "token") with
      | some t => if jsTruthy t then some t else none
      | none => none
    | none => none
  else none

end K6Utils

namespace MockApi

/-- C1: for every request body in which both `name` and `email` are
present and non-empty, `POST /api/users` returns 201 with a body whose
`data` carries a numeric `id` and echoes the submitted `name` and `email`;
for every body in which `name` or `email` is missing (absent or empty,
i.e. falsy), it returns 400 with `success:false`; and it returns 400
exactly in that case. -/
theorem postUsers_validation_spec
    (name email : String) (body : UserBody) (rid : Nat) (now : String)
    (hn : name ≠ "") (he : email ≠ "") :
    ((postUsersHandler ⟨some name, some email⟩ rid now).status = 201
      ∧ getPath (postUsersHandler ⟨some name, some email⟩ rid now).body "data" "id"
          = some (.num rid)
      ∧ getPath (postUsersHandler ⟨some name, some email⟩ rid now).body "data" "name"
          = some (.str name)
      ∧ getPath (postUsersHandler ⟨some name, some email⟩ rid now).body "data" "email"
          = some (.str email))
    ∧ ((jsFalsyS body.name || jsFalsyS body.email) = true →
        (postUsersHandler body rid now).status = 400
        ∧ getField (postUsersHandler body rid now).body "success" = some (.bool false))
    ∧ ((postUsersHandler body rid now).status = 400
        ↔ (jsFalsyS body.name || jsFalsyS body.email) = true) := by
  refine ⟨?_, ?_, ?_⟩
  · have hfalse : (jsFalsyS (some name) || jsFalsyS (some email)) = false := by
      simp [jsFalsyS, hn, he]
    have hred : postUsersHandler ⟨some name, some email⟩ rid now
        = ⟨201, .obj [("success", .bool true),
            ("data", .obj [("id", .num rid), ("name", .str name),
              ("email", .str email), ("createdAt", .str now)])]⟩ := by
      simp [postUsersHandler, hfalse]
    rw [hred]
    exact ⟨rfl, rfl, rfl, rfl⟩
  · intro h
    simp [postUsersHandler, h, getField]
  · cases h : (jsFalsyS body.name || jsFalsyS body.email) with
    | true => simp [postUsersHandler, h, getField]
    | false => simp [postUsersHandler, h]

/-- Witness for C1 at the concrete inputs `name = "Alice"`,
`email = "alice@example.com"`, a body missing `name`, `rid = 7`. -/
theorem postUsers_validation_spec_witness :
    ("Alice" : String) ≠ "" ∧ ("alice@example.com" : String) ≠ ""
    ∧ ((postUsersHandler ⟨some "Alice", some "alice@example.com"⟩ 7 "T").status = 201
      ∧ getPath (postUsersHandler ⟨some "Alice", some "alice@example.com"⟩ 7 "T").body "data" "id"
          = some (.num 7)
      ∧ getPath (postUsersHandler ⟨some "Alice", some "alice@example.com"⟩ 7 "T").body "data" "name"
          = some (.str "Alice")
      ∧ getPath (postUsersHandler ⟨some "Alice", some "alice@example.com"⟩ 7 "T").body "data" "email"
          = some (.str "alice@example.com"))
    ∧ ((jsFalsyS (UserBody.mk none (some "x")).name
        || jsFalsyS (UserBody.mk none (some "x")).email) = true →
        (postUsersHandler ⟨none, some "x"⟩ 7 "T").status = 400
        ∧ getField (postUsersHandler ⟨none, some "x"⟩ 7 "T").body "success"
            = some (.bool false))
    ∧ ((postUsersHandler ⟨none, some "x"⟩ 7 "T").status = 400
        ↔ (jsFalsyS (UserBody.mk none (some "x")).name
            || jsFalsyS (UserBody.mk none (some "x")).email) = true) :=
  ⟨by decide, by decide,
    postUsers_validation_spec "Alice" "alice@example.com" ⟨none, some "x"⟩ 7 "T"
      (by decide) (by decide)⟩

/-- C2 counterexample: with `username` present but empty and
`password = "wrong"`, the login handler returns 400, not the 401 the claim
demands for every body with `password = "wrong"` (the presence check runs
first). -/
theorem login_wrong_password_cex :
    (loginHandler ⟨some "", some "wrong"⟩ 0).status = 400
    ∧ (loginHandler ⟨some "", some "wrong"⟩ 0).status ≠ 401 := by
  constructor
  · rfl
  · intro h
    rw [show (loginHandler ⟨some "", some "wrong"⟩ 0).status = 400 from rfl] at h
    norm_num at h

/-- C2 amended: for every body whose `username` is present and non-empty,
`password = "wrong"` yields 401, and any other non-empty `password` yields
200 with a (non-empty) signed token in `data`. -/
theorem login_password_spec (u p : String) (uid : Nat) (hu : u ≠ "") :
    (p = "wrong" → (loginHandler ⟨some u, some p⟩ uid).status = 401)
    ∧ (p ≠ "" → p ≠ "wrong" →
        (loginHandler ⟨some u, some p⟩ uid).status = 200
        ∧ getPath (loginHandler ⟨some u, some p⟩ uid).body "data" "token"
            = some (.jwt (jwtSign ⟨uid, u⟩ JWT_SECRET))
        ∧ jsTruthy (.jwt (jwtSign ⟨uid, u⟩ JWT_SECRET)) = true) := by
  constructor
  · intro hp
    subst hp
    have hfalse : (jsFalsyS (some u) || jsFalsyS (some "wrong")) = false := by
      simp [jsFalsyS, hu]
    simp [loginHandler, hfalse]
  · intro hp hw
    have hfalse : (jsFalsyS (some u) || jsFalsyS (some p)) = false := by
      simp [jsFalsyS, hu, hp]
    have hnw : ¬ (some p = some "wrong") := by
      simpa using hw
    have hred : loginHandler ⟨some u, some p⟩ uid
        = ⟨200, .obj [("success", .bool true),
            ("data", .obj [
              ("token", .jwt (jwtSign ⟨uid, u⟩ JWT_SECRET)),
              ("expiresIn", .num 3600)])]⟩ := by
      simp [loginHandler, hfalse, hnw]
    rw [hred]
    exact ⟨rfl, rfl, rfl⟩

/-- Witness for the amended C2 at `username = "alice"` with both the
rejected password `"wrong"` and the accepted password `"secret"`. -/
theorem login_password_spec_witness :
    ("alice" : String) ≠ ""
    ∧ (loginHandler ⟨some "alice", some "wrong"⟩ 3 |>.status) = 401
    ∧ (loginHandler ⟨some "alice", some "secret"⟩ 3 |>.status) = 200 :=
  ⟨by decide,
    (login_password_spec "alice" "wrong" 3 (by decide)).1 rfl,
    ((login_password_spec "alice" "secret" 3 (by decide)).2 (by decide) (by decide)).1⟩

/-- C3: every login the server accepts issues a token that
`GET /api/auth/me` verifies back to the original `username` with status
200; a missing `Authorization` header, a header not of the `Bearer` form,
and a token failing signature verification each yield 401. -/
theorem login_me_roundtrip (u p : String) (uid : Nat)
    (hu : u ≠ "") (hp : p ≠ "") (hw : p ≠ "wrong") :
    ((loginHandler ⟨some u, some p⟩ uid).status = 200
      ∧ getPath (loginHandler ⟨some u, some p⟩ uid).body "data" "token"
          = some (.jwt (jwtSign ⟨uid, u⟩ JWT_SECRET))
      ∧ (authMeHandler (some (.bearer (jwtSign ⟨uid, u⟩ JWT_SECRET)))).status = 200
      ∧ getPath (authMeHandler
          (some (.bearer (jwtSign ⟨uid, u⟩ JWT_SECRET)))).body "data" "username"
          = some (.str u))
    ∧ (authMeHandler none).status = 401
    ∧ (∀ s, (authMeHandler (some (.other s))).status = 401)
    ∧ (∀ t, jwtVerify t JWT_SECRET = none →
        (authMeHandler (some (.bearer t))).status = 401) := by
  have hfalse : (jsFalsyS (some u) || jsFalsyS (some p)) = false := by
    simp [jsFalsyS, hu, hp]
  have hnw : ¬ (some p = some "wrong") := by simpa using hw
  have hred : loginHandler ⟨some u, some p⟩ uid
      = ⟨200, .obj [("success", .bool true),
          ("data", .obj [
            ("token", .jwt (jwtSign ⟨uid, u⟩ JWT_SECRET)),
            ("expiresIn", .num 3600)])]⟩ := by
    simp [loginHandler, hfalse, hnw]
  have hme : authMeHandler (some (.bearer (jwtSign ⟨uid, u⟩ JWT_SECRET)))
      = ⟨200, .obj [("success", .bool true),
          ("data", .obj [("userId", .num uid), ("username", .str u)])]⟩ := by
    simp [authMeHandler, jwtVerify, jwtSign]
  refine ⟨⟨?_, ?_, ?_, ?_⟩, rfl, fun s => rfl, fun t ht => ?_⟩
  · rw [hred]
  · rw [hred]; rfl
  · rw [hme]
  · rw [hme]; rfl
  · simp [authMeHandler, ht]

/-- Witness for C3 at `username = "alice"`, `password = "secret"`,
`uid = 1`, exercising the issued token and a garbage token. -/
theorem login_me_roundtrip_witness :
    ("alice" : String) ≠ "" ∧ ("secret" : String) ≠ ""
    ∧ ("secret" : String) ≠ "wrong"
    ∧ ((authMeHandler (some (.bearer (jwtSign ⟨1, "alice"⟩ JWT_SECRET)))).status = 200
      ∧ getPath (authMeHandler
          (some (.bearer (jwtSign ⟨1, "alice"⟩ JWT_SECRET)))).body "data" "username"
          = some (.str "alice"))
    ∧ (authMeHandler (some (.bearer (.garbage "xyz")))).status = 401 :=
  ⟨by decide, by decide, by decide,
    ⟨(login_me_roundtrip "alice" "secret" 1 (by decide) (by decide) (by decide)).1.2.2.1,
      (login_me_roundtrip "alice" "secret" 1 (by decide) (by decide)
        (by decide)).1.2.2.2⟩,
    (login_me_roundtrip "alice" "secret" 1 (by decide) (by decide)
      (by decide)).2.2.2 (.garbage "xyz") rfl⟩

/-- C4: for every path parameter of `GET /api/delay/:ms` that parses to
the number `v`, the handler passes `min v 10000` to `setTimeout` (the
milliseconds it waits), reports it as `data.actualDelay`, and reports the
parsed value as `data.requestedDelay`; a non-numeric parameter is treated
as 0. -/
theorem delay_min_spec (s now : String) (v : Int) :
    (parseIntJs s = some v →
      (delayHandler s now).2 = min v 10000
      ∧ getPath (delayHandler s now).1.body "data" "requestedDelay"
          = some (.num v)
      ∧ getPath (delayHandler s now).1.body "data" "actualDelay"
          = some (.num (min v 10000)))
    ∧ (parseIntJs s = none →
      (delayHandler s now).2 = 0
      ∧ getPath (delayHandler s now).1.body "data" "requestedDelay"
          = some (.num 0)
      ∧ getPath (delayHandler s now).1.body "data" "actualDelay"
          = some (.num 0)) := by
  constructor
  · intro h
    have hv : jsOrI (parseIntJs s) 0 = v := by
      rw [h]
      rcases eq_or_ne v 0 with h0 | h0 <;> simp [jsOrI, h0]
    have hred : delayHandler s now
        = (⟨200, .obj [("success", .bool true),
            ("data", .obj [
              ("requestedDelay", .num v),
              ("actualDelay", .num (min v 10000)),
              ("timestamp", .str now)])]⟩, min v 10000) := by
      simp [delayHandler, hv]
    refine ⟨by rw [hred], by rw [hred]; rfl, by rw [hred]; rfl⟩
  · intro h
    have hv : jsOrI (parseIntJs s) 0 = 0 := by rw [h]; rfl
    have hred : delayHandler s now
        = (⟨200, .obj [("success", .bool true),
            ("data", .obj [
              ("requestedDelay", .num 0),
              ("actualDelay", .num 0),
              ("timestamp", .str now)])]⟩, 0) := by
      simp [delayHandler, hv]
    refine ⟨by rw [hred], by rw [hred]; rfl, by rw [hred]; rfl⟩

/-- Witness for C4 at `ms = "250"` (parses to 250, below the cap) and the
non-numeric `ms = "soon"`. -/
theorem delay_min_spec_witness :
    parseIntJs "250" = some 250
    ∧ ((delayHandler "250" "T").2 = min 250 10000
      ∧ getPath (delayHandler "250" "T").1.body "data" "requestedDelay"
          = some (.num 250)
      ∧ getPath (delayHandler "250" "T").1.body "data" "actualDelay"
          = some (.num (min 250 10000)))
    ∧ parseIntJs "soon" = none
    ∧ (delayHandler "soon" "T").2 = 0 :=
  ⟨by decide,
    (delay_min_spec "250" "T" 250).1 (by decide),
    by decide,
    ((delay_min_spec "soon" "T" 0).2 (by decide)).1⟩

/-- C5 counterexample: with the query parameter `size = "0"`, the handler
falls back to the default (`parseInt(req.query.size) || 100` treats 0 as
falsy) and returns `count = 100`, not the 0 items the claim demands for
`N = 0`. -/
theorem largePayload_zero_cex :
    getField (largePayloadHandler (some "0") "T").body "count" = some (.num 100)
    ∧ ¬ getField (largePayloadHandler (some "0") "T").body "count"
        = some (.num 0) := by
  have h : getField (largePayloadHandler (some "0") "T").body "count"
      = some (.num 100) := rfl
  refine ⟨h, fun h0 => ?_⟩
  rw [h] at h0
  have := Option.some.inj h0
  simp only [Json.num.injEq] at this
  norm_num at this

/-- C5 amended: for every positive `N` supplied as the `size` query
parameter, the response has status 200 with exactly `N` synthetic items in
`data` and `count = N`; for `N = 0` (like a missing or non-numeric
parameter) the handler instead falls back to the default of 100 items. -/
theorem largePayload_positive_spec (q now : String) (n : Int)
    (hq : parseIntJs q = some n) (hpos : 0 < n) :
    (largePayloadHandler (some q) now).status = 200
    ∧ getField (largePayloadHandler (some q) now).body "count" = some (.num n)
    ∧ ∃ items, getField (largePayloadHandler (some q) now).body "data"
          = some (.arr items) ∧ (items.length : Int) = n := by
  have hv : jsOrI (parseIntJs q) 100 = n := by
    rw [hq]
    simp only [jsOrI]
    exact if_neg (by omega)
  have hcast : (n.toNat : Int) = n := Int.toNat_of_nonneg hpos.le
  have hred : largePayloadHandler (some q) now
      = ⟨200, .obj [("success", .bool true),
          ("count", .num n.toNat),
          ("data", .arr ((List.range n.toNat).map
            (fun i => largePayloadItem i now)))]⟩ := by
    simp [largePayloadHandler, hv]
  refine ⟨by rw [hred], ?_, ?_⟩
  · rw [hred]
    exact (show (some (Json.num (n.toNat : Int)) : Option Json)
        = some (.num n) by rw [hcast])
  · refine ⟨(List.range n.toNat).map (fun i => largePayloadItem i now),
      by rw [hred]; rfl, ?_⟩
    rw [List.length_map, List.length_range, hcast]

/-- Witness for the amended C5 at `size = "5"`. -/
theorem largePayload_positive_spec_witness :
    parseIntJs "5" = some 5 ∧ (0 : Int) < 5
    ∧ ((largePayloadHandler (some "5") "T").status = 200
      ∧ getField (largePayloadHandler (some "5") "T").body "count"
          = some (.num 5)
      ∧ ∃ items, getField (largePayloadHandler (some "5") "T").body "data"
            = some (.arr items) ∧ (items.length : Int) = 5) :=
  ⟨by decide, by norm_num,
    largePayload_positive_spec "5" "T" 5 (by decide) (by norm_num)⟩

/-- C6: for every path parameter of `GET /api/status/:code` that parses to
a status code `c` in the valid HTTP range 100–599, the response's status
equals `c` and its `success` field is true exactly when `c < 400`; a
non-numeric parameter yields status 200. -/
theorem status_echo_spec (s : String) (c : Int) :
    (parseIntJs s = some c → 100 ≤ c → c ≤ 599 →
      (statusHandler s).status = c
      ∧ ∃ b, getField (statusHandler s).body "success" = some (.bool b)
          ∧ (b = true ↔ c < 400))
    ∧ (parseIntJs s = none → (statusHandler s).status = 200) := by
  constructor
  · intro h h100 h599
    have hv : jsOrI (parseIntJs s) 200 = c := by
      rw [h]
      simp only [jsOrI]
      exact if_neg (by omega)
    have hred : statusHandler s
        = ⟨c, .obj [
            ("success", .bool (decide (c < 400))),
            ("statusCode", .num c),
            ("message", .str (statusMessage c))]⟩ := by
      simp [statusHandler, hv]
    exact ⟨by rw [hred], decide (c < 400), by rw [hred]; rfl, decide_eq_true_iff⟩
  · intro h
    have hv : jsOrI (parseIntJs s) 200 = 200 := by rw [h]; rfl
    simp [statusHandler, hv]

/-- Witness for C6 at `code = "503"` (an error code), and the non-numeric
`code = "teapot"`. -/
theorem status_echo_spec_witness :
    parseIntJs "503" = some 503 ∧ (100 : Int) ≤ 503 ∧ (503 : Int) ≤ 599
    ∧ ((statusHandler "503").status = 503
      ∧ ∃ b, getField (statusHandler "503").body "success" = some (.bool b)
          ∧ (b = true ↔ (503 : Int) < 400))
    ∧ parseIntJs "teapot" = none
    ∧ (statusHandler "teapot").status = 200 :=
  ⟨by decide, by norm_num, by norm_num,
    (status_echo_spec "503" 503).1 (by decide) (by norm_num) (by norm_num),
    by decide,
    (status_echo_spec "teapot" 0).2 (by decide)⟩

/-- C7: the server holds no state across requests: after any sequence of
prior requests, `GET /api/users` returns the same response as for a fresh
server, with exactly 3 users in `data`; and `DELETE /api/users/:id`
returns only an acknowledgement `message` (no `data`) and leaves the
server state unchanged. -/
theorem server_stateless_spec
    (hist : List (ApiRequest × Entropy)) (s : ServerState) (e e2 : Entropy)
    (id : String) :
    (serverStep (runRequests s hist) .getUsersReq e).1
        = (serverStep s .getUsersReq e2).1
    ∧ (∃ l, getField (serverStep (runRequests s hist) .getUsersReq e).1.body "data"
          = some (.arr l) ∧ l.length = 3)
    ∧ getField (serverStep (runRequests s hist)
        (.deleteUserReq id) e).1.body "data" = none
    ∧ (∃ m, getField (serverStep (runRequests s hist)
          (.deleteUserReq id) e).1.body "message" = some (.str m))
    ∧ (serverStep (runRequests s hist) (.deleteUserReq id) e).2
        = runRequests s hist :=
  ⟨rfl, ⟨_, rfl, rfl⟩, rfl, ⟨_, rfl⟩, rfl⟩

/-- C8: modelling `Math.random()` as an explicit draw `r` in `[0,1)`,
`GET /api/random-error` returns 500 with `success:false` exactly when
`r < 0.2`, and 200 with `success:true` otherwise; consequently the set of
draws producing a 500 has Lebesgue measure exactly 0.2 inside `[0,1)`. -/
theorem randomError_spec :
    (∀ r : ℚ, 0 ≤ r → r < 1 →
      (((randomErrorHandler r).status = 500
        ∧ getField (randomErrorHandler r).body "success" = some (.bool false))
        ↔ r < 2 / 10))
    ∧ (∀ r : ℚ, 0 ≤ r → r < 1 → ¬ r < 2 / 10 →
      (randomErrorHandler r).status = 200
      ∧ getField (randomErrorHandler r).body "success" = some (.bool true))
    ∧ MeasureTheory.volume
        {x : ℝ | 0 ≤ x ∧ x < 1
          ∧ (@randomErrorHandler ℝ _ x (Classical.dec _)).status = 500}
        = ENNReal.ofReal (2 / 10) := by
  refine ⟨?_, ?_, ?_⟩
  · intro r h0 h1
    by_cases hr : r < 2 / 10
    · have hred : randomErrorHandler r
          = ⟨500, .obj [("success", .bool false),
              ("error", .str "ランダムに発生したサーバーエラー")]⟩ := by
        simp [randomErrorHandler, hr]
      exact ⟨fun _ => hr, fun _ => ⟨by rw [hred], by rw [hred]; rfl⟩⟩
    · have hred : randomErrorHandler r
          = ⟨200, .obj [("success", .bool true),
              ("data", .obj [("message", .str "正常にレスポンスを返しました")])]⟩ := by
        simp [randomErrorHandler, hr]
      refine ⟨fun hcontra => absurd ?_ hr, fun hcontra => absurd hcontra hr⟩
      rw [hred] at hcontra
      exact absurd hcontra.1 (by norm_num)
  · intro r h0 h1 hr
    have hred : randomErrorHandler r
        = ⟨200, .obj [("success", .bool true),
            ("data", .obj [("message", .str "正常にレスポンスを返しました")])]⟩ := by
      simp [randomErrorHandler, hr]
    exact ⟨by rw [hred], by rw [hred]; rfl⟩
  · have hset : {x : ℝ | 0 ≤ x ∧ x < 1
        ∧ (@randomErrorHandler ℝ _ x (Classical.dec _)).status = 500}
        = Set.Ico (0 : ℝ) (2 / 10) := by
      ext x
      simp only [Set.mem_setOf_eq, Set.mem_Ico]
      constructor
      · rintro ⟨h0, h1, hs⟩
        refine ⟨h0, ?_⟩
        by_contra hlt
        rw [show (@randomErrorHandler ℝ _ x (Classical.dec _)).status = 200 from
          by simp [randomErrorHandler, hlt]] at hs
        exact absurd hs (by norm_num)
      · rintro ⟨h0, hlt⟩
        exact ⟨h0, hlt.trans (by norm_num),
          by simp [randomErrorHandler, hlt]⟩
    rw [hset, Real.volume_Ico]
    norm_num

/-- Witness for C8 at the draws `r = 0` (error branch) and `r = 1/2`
(success branch). -/
theorem randomError_spec_witness :
    (0 : ℚ) ≤ 0 ∧ (0 : ℚ) < 1
    ∧ ((randomErrorHandler (0 : ℚ)).status = 500
      ∧ getField (randomErrorHandler (0 : ℚ)).body "success" = some (.bool false))
    ∧ (randomErrorHandler ((1 : ℚ) / 2)).status = 200
    ∧ getField (randomErrorHandler ((1 : ℚ) / 2)).body "success"
        = some (.bool true) :=
  ⟨le_rfl, by norm_num,
    (randomError_spec.1 0 le_rfl (by norm_num)).mpr (by norm_num),
    randomError_spec.2.1 (1 / 2) (by norm_num) (by norm_num) (by norm_num)⟩

/-- C9: every `/api` route handler, the 404 fallback and the error handler
(everything except `/health`) produce a JSON body whose boolean `success`
field is true exactly when the response status is below 400. -/
theorem api_success_iff_status_lt_400 (req : ApiRequest) (e : Entropy)
    (h : req ≠ .health) :
    ∃ b : Bool, getField (handle req e).body "success" = some (.bool b)
      ∧ (b = true ↔ (handle req e).status < 400) := by
  cases req with
  | health => exact absurd rfl h
  | getUsersReq =>
    exact ⟨true, rfl, (by norm_num : true = true ↔ (200 : Int) < 400)⟩
  | getUserReq id =>
    exact ⟨true, rfl, (by norm_num : true = true ↔ (200 : Int) < 400)⟩
  | createUserReq body =>
    by_cases hb : (jsFalsyS body.name || jsFalsyS body.email) = true
    · have hred : postUsersHandler body e.newUserId e.now
          = ⟨400, .obj [("success", .bool false),
              ("error", .str "name と email は必須です")]⟩ := by
        simp [postUsersHandler, hb]
      refine ⟨false, ?_, ?_⟩ <;> simp only [handle] <;> rw [hred]
      · rfl
      · norm_num
    · have hred : postUsersHandler body e.newUserId e.now
          = ⟨201, .obj [("success", .bool true),
              ("data", .obj [("id", .num e.newUserId),
                ("name", .str (body.name.getD "")),
                ("email", .str (body.email.getD "")),
                ("createdAt", .str e.now)])]⟩ := by
        simp only [Bool.not_eq_true] at hb
        simp [postUsersHandler, hb]
      refine ⟨true, ?_, ?_⟩ <;> simp only [handle] <;> rw [hred]
      · rfl
      · norm_num
  | updateUserReq id body =>
    exact ⟨true, rfl, (by norm_num : true = true ↔ (200 : Int) < 400)⟩
  | deleteUserReq id =>
    exact ⟨true, rfl, (by norm_num : true = true ↔ (200 : Int) < 400)⟩
  | loginReq body =>
    by_cases h1 : (jsFalsyS body.username || jsFalsyS body.password) = true
    · have hred : loginHandler body e.loginUserId
          = ⟨400, .obj [("success", .bool false),
              ("error", .str "username と password は必須です")]⟩ := by
        simp [loginHandler, h1]
      refine ⟨false, ?_, ?_⟩ <;> simp only [handle] <;> rw [hred]
      · rfl
      · norm_num
    · by_cases h2 : body.password = some "wrong"
      · have hred : loginHandler body e.loginUserId
            = ⟨401, .obj [("success", .bool false),
                ("error", .str "認証に失敗しました")]⟩ := by
          simp only [Bool.not_eq_true] at h1
          rw [Bool.or_eq_false_iff] at h1
          simp [loginHandler, h1.1, h2]
          decide
        refine ⟨false, ?_, ?_⟩ <;> simp only [handle] <;> rw [hred]
        · rfl
        · norm_num
      · have hred : loginHandler body e.loginUserId
            = ⟨200, .obj [("success", .bool true),
                ("data", .obj [
                  ("token", .jwt (jwtSign ⟨e.loginUserId, body.username.getD ""⟩
                    JWT_SECRET)),
                  ("expiresIn", .num 3600)])]⟩ := by
          simp only [Bool.not_eq_true] at h1
          simp [loginHandler, h1, h2]
        refine ⟨true, ?_, ?_⟩ <;> simp only [handle] <;> rw [hred]
        · rfl
        · norm_num
  | meReq auth =>
    match auth with
    | none =>
      exact ⟨false, rfl, (by norm_num : false = true ↔ (401 : Int) < 400)⟩
    | some (.other s) =>
      exact ⟨false, rfl, (by norm_num : false = true ↔ (401 : Int) < 400)⟩
    | some (.bearer t) =>
      cases hv : jwtVerify t JWT_SECRET with
      | none =>
        have hred : authMeHandler (some (.bearer t))
            = ⟨401, .obj [("success", .bool false),
                ("error", .str "トークンが無効です")]⟩ := by
          simp [authMeHandler, hv]
        refine ⟨false, ?_, ?_⟩ <;> simp only [handle] <;> rw [hred]
        · rfl
        · norm_num
      | some p =>
        have hred : authMeHandler (some (.bearer t))
            = ⟨200, .obj [("success", .bool true),
                ("data", .obj [("userId", .num p.userId),
                  ("username", .str p.username)])]⟩ := by
          simp [authMeHandler, hv]
        refine ⟨true, ?_, ?_⟩ <;> simp only [handle] <;> rw [hred]
        · rfl
        · norm_num
  | delayReq ms =>
    exact ⟨true, rfl, (by norm_num : true = true ↔ (200 : Int) < 400)⟩
  | randomDelayReq =>
    exact ⟨true, rfl, (by norm_num : true = true ↔ (200 : Int) < 400)⟩
  | statusReq code =>
    exact ⟨decide (jsOrI (parseIntJs code) 200 < 400), rfl, decide_eq_true_iff⟩
  | randomErrorReq =>
    by_cases hr : e.errRand < 2 / 10
    · have hred : randomErrorHandler e.errRand
          = ⟨500, .obj [("success", .bool false),
              ("error", .str "ランダムに発生したサーバーエラー")]⟩ := by
        simp [randomErrorHandler, hr]
      refine ⟨false, ?_, ?_⟩ <;> simp only [handle] <;> rw [hred]
      · rfl
      · norm_num
    · have hred : randomErrorHandler e.errRand
          = ⟨200, .obj [("success", .bool true),
              ("data", .obj [("message", .str "正常にレスポンスを返しました")])]⟩ := by
        simp [randomErrorHandler, hr]
      refine ⟨true, ?_, ?_⟩ <;> simp only [handle] <;> rw [hred]
      · rfl
      · norm_num
  | largePayloadReq size =>
    exact ⟨true, rfl, (by norm_num : true = true ↔ (200 : Int) < 400)⟩
  | uploadReq =>
    exact ⟨true, rfl, (by norm_num : true = true ↔ (200 : Int) < 400)⟩
  | unmatched m p =>
    exact ⟨false, rfl, (by norm_num : false = true ↔ (404 : Int) < 400)⟩
  | raisedError =>
    exact ⟨false, rfl, (by norm_num : false = true ↔ (500 : Int) < 400)⟩

/-- Witness for C9 at `GET /api/status/503` with a fixed entropy record. -/
theorem api_success_iff_status_lt_400_witness :
    ApiRequest.statusReq "503" ≠ ApiRequest.health
    ∧ ∃ b : Bool,
        getField (handle (.statusReq "503") ⟨0, 0, 0, 0, 0, "T"⟩).body "success"
          = some (.bool b)
        ∧ (b = true ↔ (handle (.statusReq "503") ⟨0, 0, 0, 0, 0, "T"⟩).status < 400) :=
  ⟨by decide,
    api_success_iff_status_lt_400 (.statusReq "503") ⟨0, 0, 0, 0, 0, "T"⟩ (by decide)⟩

end MockApi

namespace K6Utils

open MockApi

/-- C10 counterexample: a 200 response whose body is valid JSON and whose
`data.token` field is present but the empty string still makes the `login`
helper return null (`body.data?.token || null` treats the falsy token as
absent), refuting "null exactly when the status is not 200, the body is
not valid JSON, or the parsed body lacks a `data.token` field". -/
theorem loginUtil_falsy_token_cex :
    loginUtil ⟨200, .jsonOf (.obj [("data", .obj [("token", .str "")])])⟩ = none
    ∧ jsonParse (BodyStr.jsonOf (.obj [("data", .obj [("token", .str "")])]))
        = some (.obj [("data", .obj [("token", .str "")])])
    ∧ (getField (Json.obj [("data", .obj [("token", .str "")])]) "data").bind
        (fun d => getField d "token") = some (.str "") :=
  ⟨rfl, rfl, rfl⟩

/-- C10 amended: the `login` helper is total (it always returns a token
value or null), and it returns null exactly when the response status is
not 200, the response body is not valid JSON, or the parsed body's
`data.token` is absent or falsy (e.g. the empty string). -/
theorem loginUtil_none_iff (resp : K6Response) :
    loginUtil resp = none ↔
      (resp.status ≠ 200
       ∨ jsonParse resp.body = none
       ∨ (∃ b, jsonParse resp.body = some b
            ∧ ((getField b "data").bind (fun d => getField d "token") = none
               ∨ ∃ t, (getField b "data").bind (fun d => getField d "token")
                    = some t ∧ jsTruthy t = false))) := by
  rcases resp with ⟨st, body⟩
  by_cases hst : st = 200
  · subst hst
    rcases body with j | s
    · have h1 : loginUtil ⟨200, .jsonOf j⟩
          = match (getField j "data").bind (fun d => getField d "token") with
            | some t => if jsTruthy t then some t else none
            | none => none := rfl
      cases ht : (getField j "data").bind (fun d => getField d "token") with
      | none =>
        have hL : loginUtil ⟨200, .jsonOf j⟩ = none := by
          rw [h1, ht]
        exact iff_of_true hL (Or.inr (Or.inr ⟨j, rfl, Or.inl ht⟩))
      | some t =>
        cases htr : jsTruthy t with
        | true =>
          have hL : loginUtil ⟨200, .jsonOf j⟩ = some t := by
            rw [h1, ht]
            show (if jsTruthy t = true then some t else none) = some t
            rw [if_pos htr]
          refine iff_of_false (fun hc => ?_) ?_
          · rw [hL] at hc
            exact Option.noConfusion hc
          · rintro (h200 | hpn | ⟨b', hb', hin⟩)
            · exact h200 rfl
            · exact Option.noConfusion hpn
            · have hb'' : (some j : Option Json) = some b' := hb'
              cases Option.some.inj hb''
              rcases hin with hnone | ⟨t', ht', htr'⟩
              · rw [ht] at hnone
                exact Option.noConfusion hnone
              · rw [ht] at ht'
                cases Option.some.inj ht'
                rw [htr] at htr'
                exact Bool.noConfusion htr'
        | false =>
          have hL : loginUtil ⟨200, .jsonOf j⟩ = none := by
            rw [h1, ht]
            show (if jsTruthy t = true then some t else none) = none
            rw [if_neg (by rw [htr]; exact Bool.false_ne_true)]
          exact iff_of_true hL (Or.inr (Or.inr ⟨j, rfl, Or.inr ⟨t, ht, htr⟩⟩))
    · exact iff_of_true rfl (Or.inr (Or.inl rfl))
  · have hL : loginUtil ⟨st, body⟩ = none := by
      simp [loginUtil, hst]
    exact iff_of_true hL (Or.inl hst)

end K6Utils

